import Mathlib

/-!
Verification of the openid-client BaseClient core (lib/client.js):
the ID Token validation pipeline (`validateIdToken`), the client
authentication material builder (`grantAuth`), the `_jwt` construction-time
configuration check, and the TokenSet expiry bookkeeping.

The JavaScript source is embedded shallowly:
* JSON / JS values reaching the checks are modelled by `JVal`
  (`undefined` is `Option.none`); JSON numbers are modelled as integers,
  which is exact for the unix timestamps the checks compare.
* `assert.equal` (Node's loose `==`) is `looseEq`, `Array.indexOf`'s
  strict `===` is `strictEq`, JS truthiness is `truthy`.
* `Date.now()` (milliseconds) is an explicit input `nowMs`;
  `Math.ceil(Date.now() / 1000)` is `clockCeil`, `Math.floor` is `clockFloor`.
* the base64url / JSON codec that turns the compact serialization into
  `headerObject` / `payloadObject` is an external package (`base64url`,
  `JSON.parse`); the model receives the decoded header and payload.
* `tokenHash` (lib/token_hash.js, not among the provided sources) and the
  node-jose signing context produced by `createSign` are collaborator
  functions passed as parameters.
-/

/-- A JavaScript/JSON value as it reaches the validation checks.
An absent property (JS `undefined`) is represented as `Option.none` at the
use sites, so `JVal` itself only covers defined values.  Numbers are
modelled as integers (the claims only exercise unix-timestamp numerics). -/
inductive JVal where
  | vNull : JVal
  | vBool : Bool → JVal
  | vNum : Int → JVal
  | vStr : String → JVal
  | vArr : List JVal → JVal

/-- JS truthiness of a possibly-absent value: `undefined`, `null`, `false`,
`0` and the empty string are falsy; every array is truthy. -/
def truthy : Option JVal → Bool
  | none => false
  | some .vNull => false
  | some (.vBool b) => b
  | some (.vNum n) => n != 0
  | some (.vStr s) => s != ""
  | some (.vArr _) => true

/-- Node `assert.equal` uses JS loose equality.  On the fragment the
library exercises: `undefined` and `null` are mutually equal, same-type
primitives compare by value, and arrays (compared by object reference,
always distinct objects here) and cross-type pairs are unequal.  The
numeric-string coercion cases of loose equality do not arise: every
comparison in the source has a string or a number on a known side. -/
def looseEq : Option JVal → Option JVal → Bool
  | none, none => true
  | none, some .vNull => true
  | some .vNull, none => true
  | some .vNull, some .vNull => true
  | some (.vBool a), some (.vBool b) => a == b
  | some (.vNum a), some (.vNum b) => a == b
  | some (.vStr a), some (.vStr b) => a == b
  | _, _ => false

/-- JS strict equality as used by `Array.prototype.indexOf`: same-type
primitives compare by value; arrays compare by object reference and the
compared arrays are always distinct objects here. -/
def strictEq : JVal → JVal → Bool
  | .vNull, .vNull => true
  | .vBool a, .vBool b => a == b
  | .vNum a, .vNum b => a == b
  | .vStr a, .vStr b => a == b
  | _, _ => false

/-- Models `Math.ceil(Date.now() / 1000)`: ceiling division of the
millisecond clock by 1000, via floor division of `nowMs + 999`. -/
def clockCeil (nowMs : Int) : Int := (nowMs + 999).fdiv 1000

/-- Models `Math.floor(Date.now() / 1000)`. -/
def clockFloor (nowMs : Int) : Int := nowMs.fdiv 1000

/-- Models JS `String.prototype.startsWith`: is `pre` a prefix of `s`. -/
def jsStartsWith (s pre : String) : Bool := pre.data.isPrefixOf s.data

/-- Whether a possibly-absent JS value is exactly `null` (strict
comparison against the `null` literal). -/
def isJsNull : Option JVal → Bool
  | some .vNull => true
  | _ => false

/-- The client configuration slice the verified code paths read
(the `instance(this)` metadata plus the issuer reference). -/
structure ClientCfg where
  client_id : String
  client_secret : String
  /-- field `this.issuer.issuer` -/
  issuer_identifier : String
  /-- field `this.issuer.token_endpoint` -/
  token_endpoint : String
  token_endpoint_auth_method : String
  /-- issuer metadata `token_endpoint_auth_signing_alg_values_supported`;
  `none` means the property is undefined on the issuer. -/
  token_endpoint_auth_signing_alg_values_supported : Option (List String)
  /-- defaults to `"RS256"` via `CLIENT_DEFAULTS` -/
  id_token_signed_response_alg : String
  /-- undefined unless configured -/
  userinfo_signed_response_alg : Option String

/-- The `use` argument of `validateIdToken` / `decryptIdToken`. -/
inductive Use where
  | id_token : Use
  | userinfo : Use
deriving DecidableEq

/-- The per-use expected signed-response algorithm of `validateIdToken`:
`userinfo_signed_response_alg` for userinfo responses (undefined unless
configured), `id_token_signed_response_alg` otherwise. -/
def expectedAlgFor (cfg : ClientCfg) (use : Use) : Option String :=
  match use with
  | .userinfo => cfg.userinfo_signed_response_alg
  | .id_token => some cfg.id_token_signed_response_alg

/-- The decoded `payloadObject` fields the checks read; each field is
`none` when the JSON payload lacks the property. -/
structure Payload where
  iss : Option JVal
  sub : Option JVal
  aud : Option JVal
  exp : Option JVal
  iat : Option JVal
  nbf : Option JVal
  nonce : Option JVal
  azp : Option JVal
  at_hash : Option JVal
  c_hash : Option JVal

/-- The fields `validateIdToken` reads off its `token` argument besides the
compact `id_token` itself: `token.access_token` and `token.code` (both
undefined when `token` is a bare string rather than a TokenSet). -/
structure TokenFields where
  access_token : Option JVal
  code : Option JVal

/-- How a run of `validateIdToken` that passed every claim check ends. -/
inductive VerifyAction where
  /-- the `headerObject.alg === 'none'` early return: resolve with the
  token unchanged, no key lookup, no signature verification. -/
  | accept : VerifyAction
  /-- verify the compact signature; `true` = HMAC key from `joseSecret()`
  (alg starts with `HS`), `false` = key from `issuer.key(headerObject)`. -/
  | verifySig : Bool → VerifyAction
deriving DecidableEq

/-- The tail of `validateIdToken` from the `exp` check onwards: expiry,
`azp`, audience normalization and membership, `at_hash` / `c_hash`
binding, and the `alg === 'none'` early return. -/
def validateFromExp (cfg : ClientCfg) (tok : TokenFields) (headerAlg : String)
    (p : Payload) (now : Int) (th : Option JVal → String → JVal) :
    Except String VerifyAction :=
  match p.exp with
  | some (.vNum exp) =>
    if now ≥ exp then .error "id_token expired"
    else
      -- if (payloadObject.azp !== undefined) assert.equal(client_id, azp)
      if p.azp.isSome && !looseEq (some (.vStr cfg.client_id)) p.azp then
        .error "azp must be the client_id"
      else
        -- aud normalization: a non-array aud is wrapped in a one-element
        -- array; a multi-valued aud requires a truthy azp
        match
          (match p.aud with
           | some (.vArr l) =>
             if decide (l.length > 1) && !truthy p.azp then
               Except.error "missing required JWT property azp"
             else Except.ok l
           | some v => Except.ok [v]
           | none => Except.ok ([] : List JVal)) with
        | .error e => .error e
        | .ok aud =>
          -- assert.ok(payloadObject.aud.indexOf(this.client_id) !== -1)
          if !aud.any (fun v => strictEq v (.vStr cfg.client_id)) then
            .error "aud is missing the client_id"
          -- if (payloadObject.at_hash) assert.equal(at_hash, tokenHash(...))
          else if truthy p.at_hash &&
              !looseEq p.at_hash (some (th tok.access_token headerAlg)) then
            .error "at_hash mismatch"
          -- if (payloadObject.c_hash) assert.equal(c_hash, tokenHash(...))
          else if truthy p.c_hash &&
              !looseEq p.c_hash (some (th tok.code headerAlg)) then
            .error "c_hash mismatch"
          -- if (headerObject.alg === 'none') return Promise.resolve(token)
          else if headerAlg = "none" then .ok .accept
          else .ok (.verifySig (jsStartsWith headerAlg "HS"))
  | _ => .error "exp is not a number"

/-- The nonce check of `validateIdToken` followed by `validateFromExp`.
The guard transcribes the source condition
`payloadObject.nonce || (nonce !== undefined || nonce !== null)` literally
(its right disjunction is a tautology, so the guard always fires). -/
def validateFromNonce (cfg : ClientCfg) (tok : TokenFields) (nonce : Option JVal)
    (headerAlg : String) (p : Payload) (now : Int)
    (th : Option JVal → String → JVal) : Except String VerifyAction :=
  if truthy p.nonce || (nonce.isSome || !isJsNull nonce) then
    if !looseEq p.nonce nonce then .error "nonce mismatch"
    else validateFromExp cfg tok headerAlg p now th
  else validateFromExp cfg tok headerAlg p now th

/-- The claim-check phase of `BaseClient.prototype.validateIdToken`
(lib/client.js), transcribed check by check in source order.  Parameters:
`nonce` is the caller-supplied nonce argument (`none` = undefined,
`some .vNull` = null), `headerAlg` is `headerObject.alg`, `p` is the
decoded `payloadObject`, `tok` carries `token.access_token` / `token.code`,
`nowMs` is `Date.now()`, and `th` is the `tokenHash` collaborator
(lib/token_hash.js) applied to a possibly-undefined token and the header
algorithm.  Thrown assertion failures become `Except.error` carrying the
source's message. -/
def validateIdToken (cfg : ClientCfg) (tok : TokenFields) (nonce : Option JVal)
    (use : Use) (headerAlg : String) (p : Payload) (nowMs : Int)
    (th : Option JVal → String → JVal) : Except String VerifyAction :=
  let expectedAlg : Option String := expectedAlgFor cfg use
  let now := clockCeil nowMs
  -- assert.equal(headerObject.alg, expectedAlg, 'unexpected algorithm used')
  if expectedAlg ≠ some headerAlg then .error "unexpected algorithm used"
  -- required-claim presence, in source order
  else if p.iss.isNone then .error "missing required JWT property iss"
  else if p.sub.isNone then .error "missing required JWT property sub"
  else if p.aud.isNone then .error "missing required JWT property aud"
  else if p.exp.isNone then .error "missing required JWT property exp"
  else if p.iat.isNone then .error "missing required JWT property iat"
  -- assert.equal(this.issuer.issuer, payloadObject.iss, 'unexpected iss value')
  else if !looseEq (some (.vStr cfg.issuer_identifier)) p.iss then
    .error "unexpected iss value"
  else
    match p.iat with
    | some (.vNum iat) =>
      if iat > now then .error "id_token issued in the future"
      else
        match p.nbf with
        | none => validateFromNonce cfg tok nonce headerAlg p now th
        | some (.vNum nbf) =>
          if nbf > now then .error "id_token not active yet"
          else validateFromNonce cfg tok nonce headerAlg p now th
        | some _ => .error "nbf is not a number"
    | _ => .error "iat is not a number"


/-- Models JS `String.prototype.endsWith`: is `suf` a suffix of `s`. -/
def jsEndsWith (s suf : String) : Bool := suf.data.isSuffixOf s.data

/-- The RFC 4648 base64 alphabet. -/
def base64Alphabet : List Char :=
  "ABCDEFGHIJKLMNOPQRSTUVWXYZabcdefghijklmnopqrstuvwxyz0123456789+/".data

/-- The base64 digit for a 6-bit group. -/
def base64Char (i : Nat) : Char := base64Alphabet.getD i 'A'

/-- Standard base64 of a byte sequence (RFC 4648, with padding), as
produced by Node `Buffer.prototype.toString` with encoding base64. -/
def base64Bytes : List Nat → List Char
  | b1 :: b2 :: b3 :: rest =>
    let n := b1 * 65536 + b2 * 256 + b3
    base64Char (n / 262144 % 64) :: base64Char (n / 4096 % 64) ::
      base64Char (n / 64 % 64) :: base64Char (n % 64) :: base64Bytes rest
  | [b1, b2] =>
    let n := b1 * 65536 + b2 * 256
    [base64Char (n / 262144 % 64), base64Char (n / 4096 % 64),
     base64Char (n / 64 % 64), '=']
  | [b1] =>
    let n := b1 * 65536
    [base64Char (n / 262144 % 64), base64Char (n / 4096 % 64), '=', '=']
  | [] => []

/-- The UTF-8 encoding of one character, as natural-number bytes. -/
def charUtf8 (c : Char) : List Nat :=
  let n := c.toNat
  if n < 128 then [n]
  else if n < 2048 then [192 + n / 64, 128 + n % 64]
  else if n < 65536 then [224 + n / 4096, 128 + n / 64 % 64, 128 + n % 64]
  else [240 + n / 262144, 128 + n / 4096 % 64, 128 + n / 64 % 64, 128 + n % 64]

/-- The UTF-8 bytes of a string, as natural numbers (the contents of
`new Buffer(s)`). -/
def stringBytes (s : String) : List Nat := (s.data.map charUtf8).flatten

/-- Node `new Buffer(s).toString` with encoding base64. -/
def bufferBase64 (s : String) : String := String.mk (base64Bytes (stringBytes s))

/-- The payload of a client assertion minted by `grantAuth` for the two
`_jwt` auth methods, before compact signing. -/
structure AssertionPayload where
  iat : Int
  exp : Int
  jti : String
  iss : String
  sub : String
  aud : String
deriving DecidableEq

/-- The client authentication material `grantAuth` produces: an
`Authorization` header, `client_id` / `client_secret` body fields, or
`client_assertion` / `client_assertion_type` body fields. -/
inductive AuthMaterial where
  | headers (authorization : String)
  | bodySecret (client_id client_secret : String)
  | assertionBody (client_assertion : String)
      (client_assertion_type : String)
deriving DecidableEq

/-- The shared `private_key_jwt` / `client_secret_jwt` branch of
`grantAuth`: mint the assertion payload at `Math.floor(Date.now()/1000)`
and sign it with the context `createSign()` produced. -/
def grantAuthJwt (cfg : ClientCfg) (nowMs : Int) (jti : String)
    (sign : Except String (AssertionPayload → String)) :
    Except String AuthMaterial :=
  let now := clockFloor nowMs
  match sign with
  | .error e => .error e
  | .ok s =>
    .ok (.assertionBody
      (s { iat := now, exp := now + 60, jti := jti,
           iss := cfg.client_id, sub := cfg.client_id,
           aud := cfg.token_endpoint })
      "urn:ietf:params:oauth:client-assertion-type:jwt-bearer")

/-- `BaseClient.prototype.grantAuth` (lib/client.js), transcribed.  The
`sign` parameter models `createSign()`: the selection of signing key and
algorithm is delegated to the node-jose collaborator (a client-secret
derived HMAC key or a keystore lookup), so the model receives either its
failure (e.g. the `no valid key found` assertion of `private_key_jwt`) or
a compact-signing function from the assertion payload to the signed JWT.
`nowMs` is `Date.now()` and `jti` is the fresh `uuid()` value. -/
def grantAuth (cfg : ClientCfg) (nowMs : Int) (jti : String)
    (sign : Except String (AssertionPayload → String)) :
    Except String AuthMaterial :=
  match cfg.token_endpoint_auth_method with
  | "none" => .error "client not supposed to use grant authz"
  | "client_secret_post" =>
    .ok (.bodySecret cfg.client_id cfg.client_secret)
  | "private_key_jwt" => grantAuthJwt cfg nowMs jti sign
  | "client_secret_jwt" => grantAuthJwt cfg nowMs jti sign
  | _ =>
    .ok (.headers
      ("Basic " ++ bufferBase64 (cfg.client_id ++ ":" ++ cfg.client_secret)))

/-- The fallible part of the `BaseClient` constructor on the modelled
fields: when `token_endpoint_auth_method` ends in `_jwt`, the issuer must
advertise `token_endpoint_auth_signing_alg_values_supported`
(`assert.ok`: an undefined property fails, any array — even empty — is
truthy and passes).  No other modelled field is checked, so a non-`_jwt`
method constructs unconditionally. -/
def mkClient (cfg : ClientCfg) : Except String ClientCfg :=
  if jsEndsWith cfg.token_endpoint_auth_method "_jwt" then
    if cfg.token_endpoint_auth_signing_alg_values_supported.isSome then
      .ok cfg
    else
      .error "token_endpoint_auth_signing_alg_values_supported must be provided on the issuer"
  else .ok cfg

/-- Modelled from the spec: lib/token_set.js is not among the provided
sources (only its test suite is).  Spec 4.1: on construction, if
`expires_in` is present, store `expires_at = currentUnixTime + expires_in`;
if `expires_at` is present instead, keep it. -/
structure TokenSet where
  expires_at : Option Int

/-- Modelled from the spec: TokenSet construction from a token response
carrying an optional `expires_in` and an optional `expires_at`, at unix
time `now`. -/
def mkTokenSet (now : Int) (expires_in : Option Int)
    (expires_at : Option Int) : TokenSet :=
  match expires_in with
  | some n => { expires_at := some (now + n) }
  | none => { expires_at := expires_at }

/-- Modelled from the spec: the derived `expires_in` accessor,
`max(expires_at - currentUnixTime, 0)` when `expires_at` is set. -/
def TokenSet.expiresIn (t : TokenSet) (now : Int) : Option Int :=
  t.expires_at.map fun ea => max (ea - now) 0

/-- Modelled from the spec: `expired()` returns
`expires_at !== undefined && currentUnixTime >= expires_at`,
recomputed against the current time. -/
def TokenSet.expired (t : TokenSet) (now : Int) : Bool :=
  match t.expires_at with
  | some ea => decide (now >= ea)
  | none => false

/-- A baseline configuration used by concrete witnesses. -/
def cfg0 : ClientCfg :=
  { client_id := "client", client_secret := "secret",
    issuer_identifier := "https://op.example.com",
    token_endpoint := "https://op.example.com/token",
    token_endpoint_auth_method := "client_secret_basic",
    token_endpoint_auth_signing_alg_values_supported := none,
    id_token_signed_response_alg := "RS256",
    userinfo_signed_response_alg := none }

/-- A baseline valid payload used by concrete witnesses (valid at
millisecond clock 1200000, i.e. `now = 1200`). -/
def payload0 : Payload :=
  { iss := some (.vStr "https://op.example.com"),
    sub := some (.vStr "subject"),
    aud := some (.vStr "client"),
    exp := some (.vNum 1300), iat := some (.vNum 1170),
    nbf := none, nonce := none, azp := none,
    at_hash := none, c_hash := none }

/-- The hypotheses under which the checks of `validateIdToken` preceding
the nonce comparison all pass: the expected algorithm matches the header,
the required claims are present, `iss` equals the issuer identifier,
`iat` is a number not in the future, and `nbf` is absent or a number not
in the future. -/
structure PreNonceOk (cfg : ClientCfg) (use : Use) (headerAlg : String)
    (p : Payload) (nowMs : Int) : Prop where
  alg : expectedAlgFor cfg use = some headerAlg
  iss : p.iss = some (.vStr cfg.issuer_identifier)
  sub : p.sub.isNone = false
  aud : p.aud.isNone = false
  expP : p.exp.isNone = false
  iat : ∃ i, p.iat = some (.vNum i) ∧ i ≤ clockCeil nowMs
  nbf : p.nbf = none ∨ ∃ b, p.nbf = some (.vNum b) ∧ b ≤ clockCeil nowMs

/-- The forms a nonce argument or nonce claim takes in the OIDC protocol:
absent (undefined), null, or a string. -/
def nonceLike : Option JVal → Bool
  | none => true
  | some .vNull => true
  | some (.vStr _) => true
  | some _ => false

/-- The nonce a side actually provides: undefined and null both count as
not providing one, a string provides itself. -/
def providedNonce : Option JVal → Option String
  | some (.vStr s) => some s
  | _ => none

/-- A concrete token-hash collaborator used by witnesses: every hash is
the non-empty string THEHASH. -/
def th0 : Option JVal → String → JVal := fun _ _ => .vStr "THEHASH"

/-- The baseline configuration with the unsigned response algorithm. -/
def cfgNone : ClientCfg := { cfg0 with id_token_signed_response_alg := "none" }



/-- The hypotheses under which the checks of `validateIdToken` preceding
the `iat` numeric check pass: expected algorithm, required-claim
presence, and the issuer identifier. -/
structure HeadOk (cfg : ClientCfg) (use : Use) (headerAlg : String)
    (p : Payload) : Prop where
  alg : expectedAlgFor cfg use = some headerAlg
  iss : p.iss = some (.vStr cfg.issuer_identifier)
  sub : p.sub.isNone = false
  aud : p.aud.isNone = false
  expP : p.exp.isNone = false

/-- A baseline configuration with the `client_secret_jwt` auth method. -/
def cfgCsj : ClientCfg :=
  { cfg0 with token_endpoint_auth_method := "client_secret_jwt",
              token_endpoint_auth_signing_alg_values_supported := some ["HS256"] }

/-- A concrete signing context used by witnesses. -/
def sign0 : AssertionPayload → String := fun _ => "SIGNED"

/-- A `private_key_jwt` configuration whose issuer does not advertise the
signing algorithms. -/
def cfgPkjBad : ClientCfg :=
  { cfg0 with token_endpoint_auth_method := "private_key_jwt" }

/-- A `private_key_jwt` configuration whose issuer advertises the signing
algorithms. -/
def cfgPkjOk : ClientCfg :=
  { cfg0 with token_endpoint_auth_method := "private_key_jwt",
              token_endpoint_auth_signing_alg_values_supported := some ["RS256"] }

/-- Membership of the client id in the audience after the source's
normalization: an array aud is searched as-is with strict equality
(`indexOf`), a scalar aud is wrapped into a one-element array first, and
a missing aud has no members. -/
def audMember (cfg : ClientCfg) (p : Payload) : Bool :=
  match p.aud with
  | some (.vArr l) => l.any (fun v => strictEq v (.vStr cfg.client_id))
  | some v => strictEq v (.vStr cfg.client_id)
  | none => false

theorem validate_smoke :
    validateIdToken cfg0 { access_token := none, code := none } none
      .id_token "RS256" payload0 1200000 (fun _ _ => .vStr "h") =
      .ok (.verifySig false) := by
  rfl

theorem bufferBase64_c_s : bufferBase64 "c:s" = "Yzpz" := by decide

/-- The right disjunct of the source's nonce-check condition,
`nonce !== undefined || nonce !== null`, is a tautology. -/
theorem nonceGuard_true (n : Option JVal) : (n.isSome || !isJsNull n) = true := by
  cases n with
  | none => rfl
  | some v => rfl

/-- Because its guard always fires, the nonce check always compares the
payload nonce with the caller nonce under loose equality. -/
theorem validateFromNonce_eq (cfg : ClientCfg) (tok : TokenFields)
    (nonce : Option JVal) (headerAlg : String) (p : Payload) (now : Int)
    (th : Option JVal → String → JVal) :
    validateFromNonce cfg tok nonce headerAlg p now th =
      if looseEq p.nonce nonce then validateFromExp cfg tok headerAlg p now th
      else .error "nonce mismatch" := by
  unfold validateFromNonce
  rw [nonceGuard_true]
  cases hl : looseEq p.nonce nonce <;> simp [hl]

/-- When every check before the nonce comparison passes, `validateIdToken`
runs the remainder of the pipeline starting at the nonce check. -/
theorem validateIdToken_eq_fromNonce (cfg : ClientCfg) (tok : TokenFields)
    (nonce : Option JVal) (use : Use) (headerAlg : String) (p : Payload)
    (nowMs : Int) (th : Option JVal → String → JVal)
    (h : PreNonceOk cfg use headerAlg p nowMs) :
    validateIdToken cfg tok nonce use headerAlg p nowMs th =
      validateFromNonce cfg tok nonce headerAlg p (clockCeil nowMs) th := by
  obtain ⟨halg, hiss, hsub, haud, hexp, ⟨i, hiat, hile⟩, hnbf⟩ := h
  simp only [validateIdToken]
  rw [if_neg (fun hc => hc halg)]
  rw [if_neg (by simp [hiss])]
  rw [if_neg (by simp [hsub])]
  rw [if_neg (by simp [haud])]
  rw [if_neg (by simp [hexp])]
  rw [if_neg (by simp [hiat])]
  rw [if_neg (by simp [hiss, looseEq])]
  simp only [hiat]
  rw [if_neg (by omega)]
  rcases hnbf with hnone | ⟨b, hnbf, hble⟩
  · simp only [hnone]
  · simp only [hnbf]
    rw [if_neg (by omega)]

/-- On nonce-shaped values, the loose equality the source's
`assert.equal(payloadObject.nonce, nonce)` performs coincides with
equality of the provided nonces (undefined and null collapse). -/
theorem looseEq_nonceLike (a b : Option JVal) (ha : nonceLike a = true)
    (hb : nonceLike b = true) :
    looseEq a b = true ↔ providedNonce a = providedNonce b := by
  rcases a with _ | av <;> rcases b with _ | bv
  · simp [looseEq, providedNonce]
  · cases bv <;> simp_all [nonceLike, looseEq, providedNonce]
  · cases av <;> simp_all [nonceLike, looseEq, providedNonce]
  · cases av <;> cases bv <;> simp_all [nonceLike, looseEq, providedNonce]

/-- No check at or after the `exp` check can fail with the nonce-mismatch
message. -/
theorem validateFromExp_ne_nonce (cfg : ClientCfg) (tok : TokenFields)
    (headerAlg : String) (p : Payload) (now : Int)
    (th : Option JVal → String → JVal) :
    validateFromExp cfg tok headerAlg p now th ≠ .error "nonce mismatch" := by
  unfold validateFromExp
  split
  case _ e =>
    split
    · simp
    · split
      · simp
      · split
        case _ heq =>
          split at heq
          · split_ifs at heq with hc
            · injection heq with heq
              subst heq
              simp
          · exact Except.noConfusion heq
          · exact Except.noConfusion heq
        case _ aud heq =>
          split
          · simp
          · split
            · simp
            · split
              · simp
              · split <;> simp
  · simp

/-- C1: if the token payload carries a nonce or the caller supplied one,
validation fails with a nonce mismatch exactly when the two provided
nonces differ; when neither side provides a nonce (claim absent, caller
nonce undefined or null) the check is satisfied and validation does not
fail on nonce.  The source's always-true guard makes the comparison
unconditional, and its loose equality collapses undefined and null, so
the outcome is equality of `providedNonce` on both sides. -/
theorem validateIdToken_nonce_check (cfg : ClientCfg) (tok : TokenFields)
    (nonce : Option JVal) (use : Use) (headerAlg : String) (p : Payload)
    (nowMs : Int) (th : Option JVal → String → JVal)
    (hpre : PreNonceOk cfg use headerAlg p nowMs)
    (hp : nonceLike p.nonce = true) (hc : nonceLike nonce = true) :
    (validateIdToken cfg tok nonce use headerAlg p nowMs th =
        .error "nonce mismatch") ↔
      providedNonce p.nonce ≠ providedNonce nonce := by
  rw [validateIdToken_eq_fromNonce cfg tok nonce use headerAlg p nowMs th hpre,
    validateFromNonce_eq]
  have hiff := looseEq_nonceLike p.nonce nonce hp hc
  cases hl : looseEq p.nonce nonce with
  | false =>
    rw [hl] at hiff
    simp only [Bool.false_eq_true, false_iff] at hiff
    simp [hiff]
  | true =>
    rw [hl] at hiff
    simp only [true_iff] at hiff
    simp [hiff, validateFromExp_ne_nonce]

theorem validateIdToken_nonce_check_witness :
    (validateIdToken cfg0 { access_token := none, code := none }
        (some (.vStr "other")) .id_token "RS256"
        { payload0 with nonce := some (.vStr "mine") } 1200000 th0 =
      .error "nonce mismatch") ↔
      providedNonce (some (.vStr "mine")) ≠ providedNonce (some (.vStr "other")) :=
  validateIdToken_nonce_check cfg0 { access_token := none, code := none }
    (some (.vStr "other")) .id_token "RS256"
    { payload0 with nonce := some (.vStr "mine") } 1200000 th0
    ⟨rfl, rfl, rfl, rfl, rfl, ⟨1170, rfl, by decide⟩, Or.inl rfl⟩ rfl rfl

/-- If `validateIdToken` resolves, the run survived the checks preceding
the nonce comparison and the tail pipeline resolved with the same
outcome. -/
theorem validateIdToken_ok_fromNonce {cfg : ClientCfg} {tok : TokenFields}
    {nonce : Option JVal} {use : Use} {headerAlg : String} {p : Payload}
    {nowMs : Int} {th : Option JVal → String → JVal} {a : VerifyAction}
    (h : validateIdToken cfg tok nonce use headerAlg p nowMs th = .ok a) :
    validateFromNonce cfg tok nonce headerAlg p (clockCeil nowMs) th = .ok a := by
  simp only [validateIdToken] at h
  split at h
  · exact Except.noConfusion h
  split at h
  · exact Except.noConfusion h
  split at h
  · exact Except.noConfusion h
  split at h
  · exact Except.noConfusion h
  split at h
  · exact Except.noConfusion h
  split at h
  · exact Except.noConfusion h
  split at h
  · exact Except.noConfusion h
  split at h
  case _ i hiat =>
    split at h
    · exact Except.noConfusion h
    split at h
    · exact h
    case _ b hnbf =>
      split at h
      · exact Except.noConfusion h
      exact h
    · exact Except.noConfusion h
  · exact Except.noConfusion h

/-- If the tail pipeline starting at the nonce comparison resolves, the
nonce comparison passed and the tail starting at the `exp` check resolved
with the same outcome. -/
theorem validateFromNonce_ok {cfg : ClientCfg} {tok : TokenFields}
    {nonce : Option JVal} {headerAlg : String} {p : Payload} {now : Int}
    {th : Option JVal → String → JVal} {a : VerifyAction}
    (h : validateFromNonce cfg tok nonce headerAlg p now th = .ok a) :
    validateFromExp cfg tok headerAlg p now th = .ok a := by
  rw [validateFromNonce_eq] at h
  split at h
  · exact h
  · exact Except.noConfusion h

/-- A resolving run of the tail pipeline with the unsigned header
algorithm ends in the accept outcome. -/
theorem validateFromExp_none_accept {cfg : ClientCfg} {tok : TokenFields}
    {p : Payload} {now : Int} {th : Option JVal → String → JVal}
    {a : VerifyAction}
    (h : validateFromExp cfg tok "none" p now th = .ok a) : a = .accept := by
  unfold validateFromExp at h
  split at h
  · split at h
    · exact Except.noConfusion h
    split at h
    · exact Except.noConfusion h
    split at h
    · exact Except.noConfusion h
    split at h
    · exact Except.noConfusion h
    split at h
    · exact Except.noConfusion h
    split at h
    · exact Except.noConfusion h
    split at h
    · injection h with h
      exact h.symm
    · simp at *
  · exact Except.noConfusion h

/-- C2: a token whose header algorithm is the literal unsigned marker and
which passes every claim check is resolved as-is: the outcome is the
accept action, which performs no key lookup (`joseSecret` or
`issuer.key`) and no signature verification. -/
theorem validateIdToken_alg_none (cfg : ClientCfg) (tok : TokenFields)
    (nonce : Option JVal) (use : Use) (p : Payload) (nowMs : Int)
    (th : Option JVal → String → JVal)
    (h : ∃ a, validateIdToken cfg tok nonce use "none" p nowMs th = .ok a) :
    validateIdToken cfg tok nonce use "none" p nowMs th = .ok .accept := by
  obtain ⟨a, ha⟩ := h
  have hacc := validateFromExp_none_accept (validateFromNonce_ok
    (validateIdToken_ok_fromNonce ha))
  rw [hacc] at ha
  exact ha

theorem validateIdToken_alg_none_witness :
    validateIdToken cfgNone { access_token := none, code := none } none
      .id_token "none" payload0 1200000 th0 = .ok .accept :=
  validateIdToken_alg_none cfgNone { access_token := none, code := none }
    none .id_token payload0 1200000 th0 ⟨.accept, by rfl⟩

/-- If the tail pipeline resolves, the hash-binding checks passed: a
truthy `at_hash` loosely equals the token hash of `token.access_token`
and a truthy `c_hash` loosely equals the token hash of `token.code`
(whatever those fields hold, including undefined). -/
theorem validateFromExp_ok_hashes {cfg : ClientCfg} {tok : TokenFields}
    {headerAlg : String} {p : Payload} {now : Int}
    {th : Option JVal → String → JVal} {a : VerifyAction}
    (h : validateFromExp cfg tok headerAlg p now th = .ok a) :
    (truthy p.at_hash = true →
      looseEq p.at_hash (some (th tok.access_token headerAlg)) = true) ∧
    (truthy p.c_hash = true →
      looseEq p.c_hash (some (th tok.code headerAlg)) = true) := by
  unfold validateFromExp at h
  split at h
  · split at h
    · exact Except.noConfusion h
    split at h
    · exact Except.noConfusion h
    split at h
    · exact Except.noConfusion h
    split at h
    · exact Except.noConfusion h
    split at h
    · exact Except.noConfusion h
    next hat =>
      split at h
      · exact Except.noConfusion h
      next hch =>
        refine ⟨fun htr => ?_, fun htr => ?_⟩
        · cases hl : looseEq p.at_hash (some (th tok.access_token headerAlg)) with
          | true => rfl
          | false => exact absurd (by rw [htr, hl]; rfl) hat
        · cases hl : looseEq p.c_hash (some (th tok.code headerAlg)) with
          | true => rfl
          | false => exact absurd (by rw [htr, hl]; rfl) hch
  · exact Except.noConfusion h

/-- C3 (amended): whenever `validateIdToken` resolves, a truthy `at_hash`
claim loosely equals the token hash of the token set's `access_token`
under the header algorithm, and a truthy `c_hash` claim loosely equals
the token hash of the authorization code — in each case whether or not
the corresponding `access_token` / `code` field is present on the token
set (an absent field is hashed as the undefined value).  Contrapositive:
a truthy `at_hash` or `c_hash` that does not match makes validation fail.
Falsy claim values (empty string, null, 0, false) are not checked. -/
theorem validateIdToken_hash_binding (cfg : ClientCfg) (tok : TokenFields)
    (nonce : Option JVal) (use : Use) (headerAlg : String) (p : Payload)
    (nowMs : Int) (th : Option JVal → String → JVal) (a : VerifyAction)
    (h : validateIdToken cfg tok nonce use headerAlg p nowMs th = .ok a) :
    (truthy p.at_hash = true →
      looseEq p.at_hash (some (th tok.access_token headerAlg)) = true) ∧
    (truthy p.c_hash = true →
      looseEq p.c_hash (some (th tok.code headerAlg)) = true) :=
  validateFromExp_ok_hashes (validateFromNonce_ok (validateIdToken_ok_fromNonce h))

theorem validateIdToken_hash_binding_witness :
    (truthy (Payload.at_hash { payload0 with
        at_hash := some (.vStr "THEHASH"), c_hash := some (.vStr "THEHASH") }) = true →
      looseEq (Payload.at_hash { payload0 with
        at_hash := some (.vStr "THEHASH"), c_hash := some (.vStr "THEHASH") })
        (some (th0 (TokenFields.access_token
          { access_token := some (.vStr "AT"), code := some (.vStr "C") }) "none")) = true) ∧
    (truthy (Payload.c_hash { payload0 with
        at_hash := some (.vStr "THEHASH"), c_hash := some (.vStr "THEHASH") }) = true →
      looseEq (Payload.c_hash { payload0 with
        at_hash := some (.vStr "THEHASH"), c_hash := some (.vStr "THEHASH") })
        (some (th0 (TokenFields.code
          { access_token := some (.vStr "AT"), code := some (.vStr "C") }) "none")) = true) :=
  validateIdToken_hash_binding cfgNone
    { access_token := some (.vStr "AT"), code := some (.vStr "C") } none
    .id_token "none"
    { payload0 with at_hash := some (.vStr "THEHASH"), c_hash := some (.vStr "THEHASH") }
    1200000 th0 .accept (by rfl)

/-- C3 counterexample: a payload that contains an `at_hash` claim — the
empty string, which is falsy — is accepted although the claim does not
equal the token hash of the present `access_token`: the source guards the
comparison with the claim's truthiness, not its presence. -/
theorem validateIdToken_empty_at_hash_skipped :
    truthy (some (JVal.vStr "")) = false ∧
    looseEq (some (JVal.vStr "")) (some (th0 (some (.vStr "AT")) "none")) = false ∧
    validateIdToken cfgNone { access_token := some (.vStr "AT"), code := none }
      none .id_token "none" { payload0 with at_hash := some (.vStr "") }
      1200000 th0 = .ok .accept :=
  ⟨rfl, rfl, by rfl⟩

/-- If the tail pipeline resolves: a present `azp` loosely equals the
client id, a multi-valued `aud` comes with a truthy `azp`, and the client
id is a member of the normalized audience. -/
theorem validateFromExp_ok_azp_aud {cfg : ClientCfg} {tok : TokenFields}
    {headerAlg : String} {p : Payload} {now : Int}
    {th : Option JVal → String → JVal} {a : VerifyAction}
    (h : validateFromExp cfg tok headerAlg p now th = .ok a) :
    (p.azp.isSome = true → looseEq (some (.vStr cfg.client_id)) p.azp = true) ∧
    (∀ l, p.aud = some (.vArr l) → 1 < l.length → truthy p.azp = true) ∧
    audMember cfg p = true := by
  unfold validateFromExp at h
  split at h
  · split at h
    · exact Except.noConfusion h
    split at h
    · exact Except.noConfusion h
    next hazp =>
      split at h
      · exact Except.noConfusion h
      next aud heq =>
        split at h
        · exact Except.noConfusion h
        next hmem =>
          refine ⟨fun hsome => ?_, fun l haud hlen => ?_, ?_⟩
          · cases hl : looseEq (some (.vStr cfg.client_id)) p.azp with
            | true => rfl
            | false => exact absurd (by rw [hsome, hl]; rfl) hazp
          · cases ht : truthy p.azp with
            | true => rfl
            | false =>
              simp only [haud] at heq
              rw [if_pos (by rw [ht]; simp [hlen])] at heq
              exact Except.noConfusion heq
          · rcases haud : p.aud with _ | v
            · simp only [haud] at heq
              injection heq with heq
              subst heq
              simp at hmem
            · cases v with
              | vArr l =>
                simp only [haud] at heq
                split at heq
                · exact Except.noConfusion heq
                · injection heq with heq
                  subst heq
                  simp only [audMember, haud]
                  simpa using hmem
              | vNull =>
                simp only [haud] at heq
                injection heq with heq
                subst heq
                simp only [audMember, haud]
                simpa using hmem
              | vBool b =>
                simp only [haud] at heq
                injection heq with heq
                subst heq
                simp only [audMember, haud]
                simpa using hmem
              | vNum n =>
                simp only [haud] at heq
                injection heq with heq
                subst heq
                simp only [audMember, haud]
                simpa using hmem
              | vStr s =>
                simp only [haud] at heq
                injection heq with heq
                subst heq
                simp only [audMember, haud]
                simpa using hmem
  · exact Except.noConfusion h

/-- Reaching the audience step with an expiry in the future, no `azp`
claim and a multi-valued `aud` produces the missing-azp error. -/
theorem validateFromExp_multiAud_missing_azp (cfg : ClientCfg)
    (tok : TokenFields) (headerAlg : String) (p : Payload) (now : Int)
    (th : Option JVal → String → JVal)
    (he : ∃ e, p.exp = some (.vNum e) ∧ now < e)
    (hazp : p.azp = none)
    (l : List JVal) (haud : p.aud = some (.vArr l)) (hlen : 1 < l.length) :
    validateFromExp cfg tok headerAlg p now th =
      .error "missing required JWT property azp" := by
  obtain ⟨e, hexp, hlt⟩ := he
  unfold validateFromExp
  simp only [hexp]
  rw [if_neg (by omega)]
  rw [if_neg (by simp [hazp])]
  simp only [haud]
  rw [if_pos (by simp [hazp, truthy, hlen])]

/-- C4: the audience and authorized-party checks of `validateIdToken`.
A resolving run guarantees (i) a present `azp` claim loosely equals the
client id, (ii) an `aud` array with more than one element comes with a
truthy `azp`, and (iii) the client id is a member of the normalized
audience — an array searched as-is, a scalar wrapped into a one-element
list (`audMember`).  (iv) Conversely, when every earlier check passes and
a multi-valued `aud` has no `azp` claim, validation fails with the
missing-azp error. -/
theorem validateIdToken_aud_azp :
    (∀ (cfg : ClientCfg) (tok : TokenFields) (nonce : Option JVal)
        (use : Use) (headerAlg : String) (p : Payload) (nowMs : Int)
        (th : Option JVal → String → JVal) (a : VerifyAction),
      validateIdToken cfg tok nonce use headerAlg p nowMs th = .ok a →
      p.azp.isSome = true →
      looseEq (some (.vStr cfg.client_id)) p.azp = true) ∧
    (∀ (cfg : ClientCfg) (tok : TokenFields) (nonce : Option JVal)
        (use : Use) (headerAlg : String) (p : Payload) (nowMs : Int)
        (th : Option JVal → String → JVal) (a : VerifyAction),
      validateIdToken cfg tok nonce use headerAlg p nowMs th = .ok a →
      ∀ l, p.aud = some (.vArr l) → 1 < l.length → truthy p.azp = true) ∧
    (∀ (cfg : ClientCfg) (tok : TokenFields) (nonce : Option JVal)
        (use : Use) (headerAlg : String) (p : Payload) (nowMs : Int)
        (th : Option JVal → String → JVal) (a : VerifyAction),
      validateIdToken cfg tok nonce use headerAlg p nowMs th = .ok a →
      audMember cfg p = true) ∧
    (∀ (cfg : ClientCfg) (tok : TokenFields) (nonce : Option JVal)
        (use : Use) (headerAlg : String) (p : Payload) (nowMs : Int)
        (th : Option JVal → String → JVal),
      PreNonceOk cfg use headerAlg p nowMs →
      looseEq p.nonce nonce = true →
      (∃ e, p.exp = some (.vNum e) ∧ clockCeil nowMs < e) →
      p.azp = none →
      ∀ l, p.aud = some (.vArr l) → 1 < l.length →
      validateIdToken cfg tok nonce use headerAlg p nowMs th =
        .error "missing required JWT property azp") := by
  refine ⟨?_, ?_, ?_, ?_⟩
  · intro cfg tok nonce use headerAlg p nowMs th a h
    exact (validateFromExp_ok_azp_aud
      (validateFromNonce_ok (validateIdToken_ok_fromNonce h))).1
  · intro cfg tok nonce use headerAlg p nowMs th a h
    exact (validateFromExp_ok_azp_aud
      (validateFromNonce_ok (validateIdToken_ok_fromNonce h))).2.1
  · intro cfg tok nonce use headerAlg p nowMs th a h
    exact (validateFromExp_ok_azp_aud
      (validateFromNonce_ok (validateIdToken_ok_fromNonce h))).2.2
  · intro cfg tok nonce use headerAlg p nowMs th hpre hnonce he hazp l haud hlen
    rw [validateIdToken_eq_fromNonce cfg tok nonce use headerAlg p nowMs th hpre,
      validateFromNonce_eq, if_pos hnonce]
    exact validateFromExp_multiAud_missing_azp cfg tok headerAlg p
      (clockCeil nowMs) th he hazp l haud hlen

theorem validateIdToken_aud_azp_witness :
    looseEq (some (.vStr "client")) (some (.vStr "client")) = true ∧
    truthy (some (JVal.vStr "client")) = true ∧
    audMember cfg0 payload0 = true ∧
    validateIdToken cfg0 { access_token := none, code := none } none
      .id_token "RS256"
      { payload0 with
          aud := some (.vArr [.vStr "client", .vStr "other"]), azp := none }
      1200000 th0 = .error "missing required JWT property azp" :=
  ⟨validateIdToken_aud_azp.1 cfgNone { access_token := none, code := none }
      none .id_token "none" { payload0 with azp := some (.vStr "client") }
      1200000 th0 .accept (by rfl) rfl,
   validateIdToken_aud_azp.2.1 cfgNone { access_token := none, code := none }
      none .id_token "none"
      { payload0 with
          aud := some (.vArr [.vStr "client", .vStr "other"]),
          azp := some (.vStr "client") }
      1200000 th0 .accept (by rfl) [.vStr "client", .vStr "other"] rfl
      (by decide),
   validateIdToken_aud_azp.2.2.1 cfg0 { access_token := none, code := none }
      none .id_token "RS256" payload0 1200000 th0 (.verifySig false) (by rfl),
   validateIdToken_aud_azp.2.2.2 cfg0 { access_token := none, code := none }
      none .id_token "RS256"
      { payload0 with
          aud := some (.vArr [.vStr "client", .vStr "other"]), azp := none }
      1200000 th0
      ⟨rfl, rfl, rfl, rfl, rfl, ⟨1170, rfl, by decide⟩, Or.inl rfl⟩ rfl
      ⟨1300, rfl, by decide⟩ rfl [.vStr "client", .vStr "other"] rfl (by decide)⟩

/-- Every error of the tail pipeline carries one of its seven fixed
messages. -/
theorem validateFromExp_error_mem {cfg : ClientCfg} {tok : TokenFields}
    {headerAlg : String} {p : Payload} {now : Int}
    {th : Option JVal → String → JVal} {e : String}
    (h : validateFromExp cfg tok headerAlg p now th = .error e) :
    e = "id_token expired" ∨ e = "azp must be the client_id" ∨
    e = "missing required JWT property azp" ∨
    e = "aud is missing the client_id" ∨
    e = "at_hash mismatch" ∨ e = "c_hash mismatch" ∨
    e = "exp is not a number" := by
  unfold validateFromExp at h
  split at h
  · split at h
    · injection h with h
      exact Or.inl h.symm
    split at h
    · injection h with h
      exact Or.inr (Or.inl h.symm)
    split at h
    case _ heq =>
      injection h with h
      split at heq
      · split_ifs at heq with hc
        injection heq with heq
        exact Or.inr (Or.inr (Or.inl (heq.trans h).symm))
      · exact Except.noConfusion heq
      · exact Except.noConfusion heq
    case _ aud heq =>
      split at h
      · injection h with h
        exact Or.inr (Or.inr (Or.inr (Or.inl h.symm)))
      split at h
      · injection h with h
        exact Or.inr (Or.inr (Or.inr (Or.inr (Or.inl h.symm))))
      split at h
      · injection h with h
        exact Or.inr (Or.inr (Or.inr (Or.inr (Or.inr (Or.inl h.symm)))))
      split at h
      · exact Except.noConfusion h
      · exact Except.noConfusion h
  · injection h with h
    exact Or.inr (Or.inr (Or.inr (Or.inr (Or.inr (Or.inr h.symm)))))

/-- C5: `validateIdToken` measures the clock as the ceiling of the
current unix time in seconds (`clockCeil` of the millisecond clock) and
then: (a) fails when a present `iat` is not a number and (b) when
`iat > now`; (c) fails when a present `nbf` is not a number and (d) when
`nbf > now`; (e) fails when `exp` is not a number and (f) when
`exp <= now` — `exp` must be strictly greater than `now`; and (g) an
absent `nbf` is never the source of a failure. -/
theorem validateIdToken_timing :
    (∀ (cfg : ClientCfg) (tok : TokenFields) (nonce : Option JVal)
        (use : Use) (headerAlg : String) (p : Payload) (nowMs : Int)
        (th : Option JVal → String → JVal),
      HeadOk cfg use headerAlg p →
      ∀ v, p.iat = some v → (∀ n, v ≠ .vNum n) →
      validateIdToken cfg tok nonce use headerAlg p nowMs th =
        .error "iat is not a number") ∧
    (∀ (cfg : ClientCfg) (tok : TokenFields) (nonce : Option JVal)
        (use : Use) (headerAlg : String) (p : Payload) (nowMs : Int)
        (th : Option JVal → String → JVal),
      HeadOk cfg use headerAlg p →
      ∀ i, p.iat = some (.vNum i) → clockCeil nowMs < i →
      validateIdToken cfg tok nonce use headerAlg p nowMs th =
        .error "id_token issued in the future") ∧
    (∀ (cfg : ClientCfg) (tok : TokenFields) (nonce : Option JVal)
        (use : Use) (headerAlg : String) (p : Payload) (nowMs : Int)
        (th : Option JVal → String → JVal),
      HeadOk cfg use headerAlg p →
      (∃ i, p.iat = some (.vNum i) ∧ i ≤ clockCeil nowMs) →
      ∀ v, p.nbf = some v → (∀ n, v ≠ .vNum n) →
      validateIdToken cfg tok nonce use headerAlg p nowMs th =
        .error "nbf is not a number") ∧
    (∀ (cfg : ClientCfg) (tok : TokenFields) (nonce : Option JVal)
        (use : Use) (headerAlg : String) (p : Payload) (nowMs : Int)
        (th : Option JVal → String → JVal),
      HeadOk cfg use headerAlg p →
      (∃ i, p.iat = some (.vNum i) ∧ i ≤ clockCeil nowMs) →
      ∀ b, p.nbf = some (.vNum b) → clockCeil nowMs < b →
      validateIdToken cfg tok nonce use headerAlg p nowMs th =
        .error "id_token not active yet") ∧
    (∀ (cfg : ClientCfg) (tok : TokenFields) (nonce : Option JVal)
        (use : Use) (headerAlg : String) (p : Payload) (nowMs : Int)
        (th : Option JVal → String → JVal),
      PreNonceOk cfg use headerAlg p nowMs →
      looseEq p.nonce nonce = true →
      ∀ v, p.exp = some v → (∀ n, v ≠ .vNum n) →
      validateIdToken cfg tok nonce use headerAlg p nowMs th =
        .error "exp is not a number") ∧
    (∀ (cfg : ClientCfg) (tok : TokenFields) (nonce : Option JVal)
        (use : Use) (headerAlg : String) (p : Payload) (nowMs : Int)
        (th : Option JVal → String → JVal),
      PreNonceOk cfg use headerAlg p nowMs →
      looseEq p.nonce nonce = true →
      ∀ e, p.exp = some (.vNum e) → e ≤ clockCeil nowMs →
      validateIdToken cfg tok nonce use headerAlg p nowMs th =
        .error "id_token expired") ∧
    (∀ (cfg : ClientCfg) (tok : TokenFields) (nonce : Option JVal)
        (use : Use) (headerAlg : String) (p : Payload) (nowMs : Int)
        (th : Option JVal → String → JVal),
      p.nbf = none →
      validateIdToken cfg tok nonce use headerAlg p nowMs th ≠
        .error "nbf is not a number" ∧
      validateIdToken cfg tok nonce use headerAlg p nowMs th ≠
        .error "id_token not active yet") := by
  refine ⟨?_, ?_, ?_, ?_, ?_, ?_, ?_⟩
  · intro cfg tok nonce use headerAlg p nowMs th hh v hiat hv
    simp only [validateIdToken]
    rw [if_neg (fun hc => hc hh.alg)]
    rw [if_neg (by simp [hh.iss])]
    rw [if_neg (by simp [hh.sub])]
    rw [if_neg (by simp [hh.aud])]
    rw [if_neg (by simp [hh.expP])]
    rw [if_neg (by simp [hiat])]
    rw [if_neg (by simp [hh.iss, looseEq])]
    simp only [hiat]
    cases v with
    | vNum n => exact absurd rfl (hv n)
    | vNull => rfl
    | vBool b => rfl
    | vStr s => rfl
    | vArr l => rfl
  · intro cfg tok nonce use headerAlg p nowMs th hh i hiat hgt
    simp only [validateIdToken]
    rw [if_neg (fun hc => hc hh.alg)]
    rw [if_neg (by simp [hh.iss])]
    rw [if_neg (by simp [hh.sub])]
    rw [if_neg (by simp [hh.aud])]
    rw [if_neg (by simp [hh.expP])]
    rw [if_neg (by simp [hiat])]
    rw [if_neg (by simp [hh.iss, looseEq])]
    simp only [hiat]
    rw [if_pos (by omega)]
  · intro cfg tok nonce use headerAlg p nowMs th hh ⟨i, hiat, hile⟩ v hnbf hv
    simp only [validateIdToken]
    rw [if_neg (fun hc => hc hh.alg)]
    rw [if_neg (by simp [hh.iss])]
    rw [if_neg (by simp [hh.sub])]
    rw [if_neg (by simp [hh.aud])]
    rw [if_neg (by simp [hh.expP])]
    rw [if_neg (by simp [hiat])]
    rw [if_neg (by simp [hh.iss, looseEq])]
    simp only [hiat]
    rw [if_neg (by omega)]
    simp only [hnbf]
  · intro cfg tok nonce use headerAlg p nowMs th hh ⟨i, hiat, hile⟩ b hnbf hgt
    simp only [validateIdToken]
    rw [if_neg (fun hc => hc hh.alg)]
    rw [if_neg (by simp [hh.iss])]
    rw [if_neg (by simp [hh.sub])]
    rw [if_neg (by simp [hh.aud])]
    rw [if_neg (by simp [hh.expP])]
    rw [if_neg (by simp [hiat])]
    rw [if_neg (by simp [hh.iss, looseEq])]
    simp only [hiat]
    rw [if_neg (by omega)]
    simp only [hnbf]
    rw [if_pos (by omega)]
  · intro cfg tok nonce use headerAlg p nowMs th hpre hnonce v hexpv hv
    rw [validateIdToken_eq_fromNonce cfg tok nonce use headerAlg p nowMs th hpre,
      validateFromNonce_eq, if_pos hnonce]
    unfold validateFromExp
    simp only [hexpv]
    cases v with
    | vNum n => exact absurd rfl (hv n)
    | vNull => rfl
    | vBool b => rfl
    | vStr s => rfl
    | vArr l => rfl
  · intro cfg tok nonce use headerAlg p nowMs th hpre hnonce e hexpv hle
    rw [validateIdToken_eq_fromNonce cfg tok nonce use headerAlg p nowMs th hpre,
      validateFromNonce_eq, if_pos hnonce]
    unfold validateFromExp
    simp only [hexpv]
    rw [if_pos (by omega)]
  · intro cfg tok nonce use headerAlg p nowMs th hnbf
    constructor <;> intro h
    all_goals
      simp only [validateIdToken, hnbf] at h
      split at h
      · simp at h
      split at h
      · simp at h
      split at h
      · simp at h
      split at h
      · simp at h
      split at h
      · simp at h
      split at h
      · simp at h
      split at h
      · simp at h
      split at h
      case _ i hiat =>
        split at h
        · simp at h
        rw [validateFromNonce_eq] at h
        split at h
        · rcases validateFromExp_error_mem h with hm | hm | hm | hm | hm | hm | hm <;>
            simp at hm
        · simp at h
      · simp at h

theorem validateIdToken_timing_witness :
    validateIdToken cfg0 { access_token := none, code := none } none
      .id_token "RS256" { payload0 with iat := some (.vStr "x") } 1200000 th0 =
      .error "iat is not a number" ∧
    validateIdToken cfg0 { access_token := none, code := none } none
      .id_token "RS256" { payload0 with iat := some (.vNum 9999) } 1200000 th0 =
      .error "id_token issued in the future" ∧
    validateIdToken cfg0 { access_token := none, code := none } none
      .id_token "RS256" { payload0 with nbf := some (.vStr "x") } 1200000 th0 =
      .error "nbf is not a number" ∧
    validateIdToken cfg0 { access_token := none, code := none } none
      .id_token "RS256" { payload0 with nbf := some (.vNum 9999) } 1200000 th0 =
      .error "id_token not active yet" ∧
    validateIdToken cfg0 { access_token := none, code := none } none
      .id_token "RS256" { payload0 with exp := some (.vStr "x") } 1200000 th0 =
      .error "exp is not a number" ∧
    validateIdToken cfg0 { access_token := none, code := none } none
      .id_token "RS256" { payload0 with exp := some (.vNum 100) } 1200000 th0 =
      .error "id_token expired" ∧
    (validateIdToken cfg0 { access_token := none, code := none } none
      .id_token "RS256" payload0 1200000 th0 ≠ .error "nbf is not a number" ∧
    validateIdToken cfg0 { access_token := none, code := none } none
      .id_token "RS256" payload0 1200000 th0 ≠ .error "id_token not active yet") :=
  ⟨validateIdToken_timing.1 cfg0 _ none .id_token "RS256" _ 1200000 th0
      ⟨rfl, rfl, rfl, rfl, rfl⟩ (.vStr "x") rfl (fun n h => JVal.noConfusion h),
   validateIdToken_timing.2.1 cfg0 _ none .id_token "RS256" _ 1200000 th0
      ⟨rfl, rfl, rfl, rfl, rfl⟩ 9999 rfl (by decide),
   validateIdToken_timing.2.2.1 cfg0 _ none .id_token "RS256" _ 1200000 th0
      ⟨rfl, rfl, rfl, rfl, rfl⟩ ⟨1170, rfl, by decide⟩ (.vStr "x") rfl
      (fun n h => JVal.noConfusion h),
   validateIdToken_timing.2.2.2.1 cfg0 _ none .id_token "RS256" _ 1200000 th0
      ⟨rfl, rfl, rfl, rfl, rfl⟩ ⟨1170, rfl, by decide⟩ 9999 rfl (by decide),
   validateIdToken_timing.2.2.2.2.1 cfg0 _ none .id_token "RS256" _ 1200000 th0
      ⟨rfl, rfl, rfl, rfl, rfl, ⟨1170, rfl, by decide⟩, Or.inl rfl⟩ rfl
      (.vStr "x") rfl (fun n h => JVal.noConfusion h),
   validateIdToken_timing.2.2.2.2.2.1 cfg0 _ none .id_token "RS256" _ 1200000 th0
      ⟨rfl, rfl, rfl, rfl, rfl, ⟨1170, rfl, by decide⟩, Or.inl rfl⟩ rfl
      100 rfl (by decide),
   validateIdToken_timing.2.2.2.2.2.2 cfg0 _ none .id_token "RS256" payload0
      1200000 th0 rfl⟩

/-- C6: for the `client_secret_jwt` and `private_key_jwt` auth methods,
whenever the signing context is available, `grantAuth` mints a client
assertion whose payload is exactly `iat = floor(unix now)`,
`exp = iat + 60`, the fresh `jti`, `iss` and `sub` both the client id and
`aud` the issuer's token endpoint, signs it compactly, and returns it as
the `client_assertion` body field together with the jwt-bearer
`client_assertion_type`. -/
theorem grantAuth_jwt_assertion (cfg : ClientCfg) (nowMs : Int) (jti : String)
    (s : AssertionPayload → String)
    (hm : cfg.token_endpoint_auth_method = "client_secret_jwt" ∨
      cfg.token_endpoint_auth_method = "private_key_jwt") :
    grantAuth cfg nowMs jti (.ok s) =
      .ok (.assertionBody
        (s { iat := clockFloor nowMs, exp := clockFloor nowMs + 60,
             jti := jti, iss := cfg.client_id, sub := cfg.client_id,
             aud := cfg.token_endpoint })
        "urn:ietf:params:oauth:client-assertion-type:jwt-bearer") := by
  rcases hm with hm | hm <;>
    · unfold grantAuth
      rw [hm]
      rfl

theorem grantAuth_jwt_assertion_witness :
    grantAuth cfgCsj 1200500 "JTI" (.ok sign0) =
      .ok (.assertionBody
        (sign0 { iat := clockFloor 1200500, exp := clockFloor 1200500 + 60,
                 jti := "JTI", iss := cfgCsj.client_id,
                 sub := cfgCsj.client_id, aud := cfgCsj.token_endpoint })
        "urn:ietf:params:oauth:client-assertion-type:jwt-bearer") :=
  grantAuth_jwt_assertion cfgCsj 1200500 "JTI" sign0 (Or.inl rfl)

/-- C7: `grantAuth` with the `none` auth method always fails; with
`client_secret_basic` it returns exactly the
`Authorization: Basic base64(client_id:client_secret)` header; and with
`client_secret_post` it returns the `client_id` / `client_secret` body
fields. -/
theorem grantAuth_none_basic_post (cfg : ClientCfg) (nowMs : Int)
    (jti : String) (sign : Except String (AssertionPayload → String)) :
    grantAuth { cfg with token_endpoint_auth_method := "none" }
        nowMs jti sign = .error "client not supposed to use grant authz" ∧
    grantAuth { cfg with token_endpoint_auth_method := "client_secret_basic" }
        nowMs jti sign =
      .ok (.headers
        ("Basic " ++ bufferBase64 (cfg.client_id ++ ":" ++ cfg.client_secret))) ∧
    grantAuth { cfg with token_endpoint_auth_method := "client_secret_post" }
        nowMs jti sign = .ok (.bodySecret cfg.client_id cfg.client_secret) :=
  ⟨rfl, rfl, rfl⟩

/-- C8: every auth method other than `none`, `client_secret_post`,
`client_secret_jwt` and `private_key_jwt` — any unrecognized string
included — falls through to the `client_secret_basic` behavior and
returns the Basic authorization header; an unknown method is never
rejected. -/
theorem grantAuth_unknown_method (cfg : ClientCfg) (nowMs : Int)
    (jti : String) (sign : Except String (AssertionPayload → String))
    (h1 : cfg.token_endpoint_auth_method ≠ "none")
    (h2 : cfg.token_endpoint_auth_method ≠ "client_secret_post")
    (h3 : cfg.token_endpoint_auth_method ≠ "private_key_jwt")
    (h4 : cfg.token_endpoint_auth_method ≠ "client_secret_jwt") :
    grantAuth cfg nowMs jti sign =
      .ok (.headers
        ("Basic " ++ bufferBase64 (cfg.client_id ++ ":" ++ cfg.client_secret))) := by
  unfold grantAuth
  split <;> simp_all

theorem grantAuth_unknown_method_witness :
    grantAuth { cfg0 with token_endpoint_auth_method := "tls_client_auth" }
      1200500 "JTI" (.error "unused") =
      .ok (.headers ("Basic " ++ bufferBase64
        (ClientCfg.client_id
            { cfg0 with token_endpoint_auth_method := "tls_client_auth" } ++
          ":" ++
          ClientCfg.client_secret
            { cfg0 with token_endpoint_auth_method := "tls_client_auth" }))) :=
  grantAuth_unknown_method
    { cfg0 with token_endpoint_auth_method := "tls_client_auth" }
    1200500 "JTI" (.error "unused") (by decide) (by decide) (by decide)
    (by decide)

/-- C9: the `BaseClient` constructor fails eagerly, at construction time,
whenever the auth method ends in the `_jwt` suffix and the issuer does not
advertise `token_endpoint_auth_signing_alg_values_supported`; when the
issuer does advertise the property (any array, even empty) a `_jwt`
client constructs, and a non-`_jwt` auth method constructs with no such
check at all, whatever the issuer advertises. -/
theorem mkClient_jwt_check :
    (∀ cfg : ClientCfg,
      jsEndsWith cfg.token_endpoint_auth_method "_jwt" = true →
      cfg.token_endpoint_auth_signing_alg_values_supported = none →
      mkClient cfg =
        .error "token_endpoint_auth_signing_alg_values_supported must be provided on the issuer") ∧
    (∀ cfg : ClientCfg,
      jsEndsWith cfg.token_endpoint_auth_method "_jwt" = true →
      ∀ l, cfg.token_endpoint_auth_signing_alg_values_supported = some l →
      mkClient cfg = .ok cfg) ∧
    (∀ cfg : ClientCfg,
      jsEndsWith cfg.token_endpoint_auth_method "_jwt" = false →
      mkClient cfg = .ok cfg) := by
  refine ⟨?_, ?_, ?_⟩
  · intro cfg hj hn
    unfold mkClient
    rw [if_pos hj, if_neg (by simp [hn])]
  · intro cfg hj l hl
    unfold mkClient
    rw [if_pos hj, if_pos (by simp [hl])]
  · intro cfg hj
    unfold mkClient
    rw [if_neg (by simp [hj])]

theorem mkClient_jwt_check_witness :
    mkClient cfgPkjBad =
      .error "token_endpoint_auth_signing_alg_values_supported must be provided on the issuer" ∧
    mkClient cfgPkjOk = .ok cfgPkjOk ∧
    mkClient cfg0 = .ok cfg0 :=
  ⟨mkClient_jwt_check.1 cfgPkjBad (by decide) rfl,
   mkClient_jwt_check.2.1 cfgPkjOk (by decide) ["RS256"] rfl,
   mkClient_jwt_check.2.2 cfg0 (by decide)⟩

/-- C10: a TokenSet freshly constructed from a response with
`expires_in = n` at unix time `now` has `expires_at = now + n`, its
`expired()` returns true exactly when `n <= 0`, and the `expires_in`
accessor derives its value back from `expires_at` clamped at zero, so a
negative `n` yields `expires_in = 0`. -/
theorem tokenSet_expiry (n now : Int) :
    (mkTokenSet now (some n) none).expires_at = some (now + n) ∧
    ((mkTokenSet now (some n) none).expired now = true ↔ n ≤ 0) ∧
    (mkTokenSet now (some n) none).expiresIn now = some (max n 0) := by
  refine ⟨rfl, ?_, ?_⟩
  · simp only [mkTokenSet, TokenSet.expired, decide_eq_true_eq]
    omega
  · have h : now + n - now = n := by ring
    simp [mkTokenSet, TokenSet.expiresIn, h]

theorem tokenSet_expiry_witness :
    (mkTokenSet 1000 (some 300) none).expires_at = some (1000 + 300) ∧
    ((mkTokenSet 1000 (some 300) none).expired 1000 = true ↔ (300 : Int) ≤ 0) ∧
    (mkTokenSet 1000 (some 300) none).expiresIn 1000 = some (max 300 0) :=
  tokenSet_expiry 300 1000
